import Mathlib

/-!
# Verification of the autodevops-ai workflow execution engine

This development embeds the core of the autodevops-ai repository in Lean 4
and proves the specified properties about it.

Two parts of the repository are embedded:

* the **workflow execution engine** (definition loading, validation,
  parameter-template resolution, task dispatch, fail-fast execution,
  logging).  The engine source (`backend/services/kestra_workflow.py`) is
  not part of the shipped source tree (only its test suite and its
  front-end callers are), so the engine is modelled from the
  specification; every such definition carries a `Modelled from the spec:`
  doc comment.
* the **front-end helpers** that are present in the source tree:
  the labels parsing of `IssueCreator.jsx` (`handleSubmit`) and the
  execution-error normalisation of `WorkflowExecutor.jsx`
  (`executeWorkflow`), translated directly from the JavaScript.

Machine-level aspects that the engine does not depend on (timestamps on
log records, the physical append-only store) are not modelled; a log
record is represented by the data the engine puts into it.
-/

namespace AutoDevOps

/-- Modelled from the spec: the closed set of task kinds supported by the
Task Dispatcher (§3 TaskSpec.kind): MailList, MailSend, TextProcess,
IssueCreate, PRList, HttpRequest. -/
inductive Kind
  | MailList
  | MailSend
  | TextProcess
  | IssueCreate
  | PRList
  | HttpRequest
deriving DecidableEq, Repr

/-- Modelled from the spec: the static mapping from a task's declared kind
(a string in the loaded definition) to the handler table's key; an
unmapped string is an unknown kind (§4.2). -/
def kindOf : String → Option Kind
  | "MailList" => some Kind.MailList
  | "MailSend" => some Kind.MailSend
  | "TextProcess" => some Kind.TextProcess
  | "IssueCreate" => some Kind.IssueCreate
  | "PRList" => some Kind.PRList
  | "HttpRequest" => some Kind.HttpRequest
  | _ => none

/-- Modelled from the spec: a parameter value of a TaskSpec (§3): either a
literal, a template reference to a caller input `inputs.<key>`, or a
template reference to a prior task's result `results.<taskId>.<field>`. -/
inductive ParamValue
  | lit (s : String)
  | inputRef (key : String)
  | resultRef (taskId : String) (field : String)
deriving DecidableEq, Repr

/-- Modelled from the spec: a TaskSpec (§3): `taskId`, declared `kind`
(kept as the string of the loaded definition so that unknown kinds are
representable), and templated `params`. -/
structure TaskSpec where
  taskId : String
  kind : String
  params : List (String × ParamValue)
deriving DecidableEq, Repr

/-- Modelled from the spec: a WorkflowDefinition (§3): `id`, grouping
`namespace` (field `ns`, not semantically used by the engine), and the
ordered task list. -/
structure WorkflowDefinition where
  id : String
  ns : String
  tasks : List TaskSpec
deriving DecidableEq, Repr

/-- Modelled from the spec: the two-valued `status` used by task results
and execution reports (§3). -/
inductive Status
  | Success
  | Failed
deriving DecidableEq, Repr

/-- Modelled from the spec: a TaskResult (§3): `taskId`, `kind`, `status`,
opaque `payload` on success (modelled as a field map so that template
references to `results.<taskId>.<field>` can be resolved), `errorDetail`
on failure. -/
structure TaskResult where
  taskId : String
  kind : String
  status : Status
  payload : List (String × String)
  errorDetail : Option String
deriving DecidableEq, Repr

/-- Modelled from the spec: an ExecutionReport (§3): `workflowId`, overall
`status`, ordered result sequence, `errorDetail` when failed. -/
structure ExecutionReport where
  workflowId : String
  status : Status
  results : List TaskResult
  errorDetail : Option String
deriving DecidableEq, Repr

/-- Modelled from the spec: a LogRecord (§3) as the engine fills it:
`workflowId`, `taskId` (none for the run-summary record), `status`,
`detail`.  The timestamp is supplied by the store and is not modelled. -/
structure LogRecord where
  workflowId : String
  taskId : Option String
  status : Status
  detail : String
deriving DecidableEq, Repr

/-- Modelled from the spec: what `executeWorkflow` hands back to the
caller (§4.1, §7): either a structured report, or one of the two
definition-level errors that are reported before the run starts. -/
inductive ExecOutcome
  | report (r : ExecutionReport)
  | workflowNotFound
  | definitionInvalid (detail : String)
deriving DecidableEq, Repr

/-- Modelled from the spec: the possible behaviours of a collaborator
handler's `execute` (§4.2, §6): a successful payload, a returned error,
or a raised exception (the latter two are normalised by the Dispatcher). -/
inductive HandlerOutcome
  | ok (payload : List (String × String))
  | err (detail : String)
  | exn (detail : String)
deriving DecidableEq, Repr

/-- A handler table: one collaborator `execute` per task kind. -/
abbrev HandlerMap := Kind → List (String × String) → HandlerOutcome

/-- Modelled from the spec: the first task result recorded for `tid` that
completed successfully (§4.2 template-resolution rule: a
`results.<taskId>.<field>` reference resolves against a task that already
completed successfully earlier in the same run). -/
def firstSuccessFor (done : List TaskResult) (tid : String) : Option TaskResult :=
  done.find? (fun r => r.taskId == tid && r.status == Status.Success)

/-- Modelled from the spec: resolution of one parameter value against the
immutable snapshot `{inputs, results-so-far}` (§4.1, §9).  A reference
that does not resolve is a `DefinitionInvalid` caught at load time per
§4.2; at this point the spec leaves its value unconstrained and the model
substitutes the empty string. -/
def resolveParam (inputs : List (String × String)) (done : List TaskResult) :
    ParamValue → String
  | ParamValue.lit s => s
  | ParamValue.inputRef k => (inputs.lookup k).getD ""
  | ParamValue.resultRef tid field =>
    match firstSuccessFor done tid with
    | some r => (r.payload.lookup field).getD ""
    | none => ""

/-- Modelled from the spec: resolution of a whole parameter map,
immediately before dispatch (§4.1). -/
def resolveParams (inputs : List (String × String)) (done : List TaskResult)
    (ps : List (String × ParamValue)) : List (String × String) :=
  ps.map (fun p => (p.1, resolveParam inputs done p.2))

/-- Modelled from the spec: the uniform failure shape produced by the
Dispatcher (§4.2). -/
def failedResult (t : TaskSpec) (detail : String) : TaskResult :=
  { taskId := t.taskId, kind := t.kind, status := Status.Failed,
    payload := [], errorDetail := some detail }

/-- Modelled from the spec: `dispatch(kind, resolvedParams) -> TaskResult`
(§4.2): resolve the kind through the static table (unmapped kind is the
defensive fallback `Failed` with detail "unsupported task kind"), invoke
the handler once, normalise a returned error or a raised exception into
`TaskResult{status: Failed, errorDetail}`. -/
def dispatch (handlers : HandlerMap) (t : TaskSpec)
    (resolved : List (String × String)) : TaskResult :=
  match kindOf t.kind with
  | none => failedResult t "unsupported task kind"
  | some k =>
    match handlers k resolved with
    | HandlerOutcome.ok p =>
      { taskId := t.taskId, kind := t.kind, status := Status.Success,
        payload := p, errorDetail := none }
    | HandlerOutcome.err d => failedResult t d
    | HandlerOutcome.exn d => failedResult t d

/-- Modelled from the spec: one task step of the Executor (§4.1): resolve
the templated params against `{inputs, results-so-far}` and pass them to
the Dispatcher. -/
def execTask (handlers : HandlerMap) (inputs : List (String × String))
    (done : List TaskResult) (t : TaskSpec) : TaskResult :=
  dispatch handlers t (resolveParams inputs done t.params)

/-- Modelled from the spec: the per-task log record (§4.3): one record per
task attempt, carrying the attempt's status. -/
def taskLog (wfId : String) (r : TaskResult) : LogRecord :=
  { workflowId := wfId, taskId := some r.taskId, status := r.status,
    detail := r.errorDetail.getD "" }

/-- Modelled from the spec: the terminal summary log record (§4.3),
carrying the overall status. -/
def summaryLog (wfId : String) (st : Status) (e : Option String) : LogRecord :=
  { workflowId := wfId, taskId := none, status := st, detail := e.getD "" }

/-- The state assembled by one run of the task loop: the ordered result
sequence, the log records the Executor emits, the taskIds for which a
handler was actually invoked (the dispatch trace), the overall status and
the error detail of the failing task, if any. -/
structure RunState where
  results : List TaskResult
  logs : List LogRecord
  calls : List String
  status : Status
  errorDetail : Option String
deriving DecidableEq, Repr

/-- Modelled from the spec: the Executor's task loop (§4.1): walk the task
list in order; per task resolve, dispatch, record the result and one log
record; on the first `Failed` result stop (fail-fast short-circuit),
otherwise continue with the result appended to the snapshot. -/
def runTasks (handlers : HandlerMap) (wfId : String)
    (inputs : List (String × String)) (done : List TaskResult) :
    List TaskSpec → RunState
  | [] => ⟨[], [], [], Status.Success, none⟩
  | t :: rest =>
    let r := execTask handlers inputs done t
    match r.status with
    | Status.Failed =>
      ⟨[r], [taskLog wfId r], [t.taskId], Status.Failed, r.errorDetail⟩
    | Status.Success =>
      let s := runTasks handlers wfId inputs (done ++ [r]) rest
      ⟨r :: s.results, taskLog wfId r :: s.logs, t.taskId :: s.calls,
        s.status, s.errorDetail⟩

/-- Modelled from the spec: load-time validation (§4.1): the loaded
definition is malformed when the task list is empty, a `taskId` is
duplicated, or a declared kind is unknown; the first applicable detail is
reported. -/
def validateDetail (wf : WorkflowDefinition) : Option String :=
  if wf.tasks.isEmpty then some "empty task list"
  else if !(decide (wf.tasks.map TaskSpec.taskId).Nodup) then some "duplicate taskId"
  else if wf.tasks.any (fun t => (kindOf t.kind).isNone) then some "unknown kind"
  else none

/-- What one invocation of the engine produces: the outcome handed to the
caller, the log records emitted towards the Logger sink, and the dispatch
trace (which handlers were invoked, by taskId). -/
structure ExecResult where
  outcome : ExecOutcome
  logs : List LogRecord
  calls : List String
deriving DecidableEq, Repr

/-- Modelled from the spec: `executeWorkflow(workflowId, inputs) ->
ExecutionReport` (§4.1): `WorkflowNotFound` when the Definition Store
cannot resolve the id (no run is started, nothing is logged);
`DefinitionInvalid` when validation fails (before any task runs, no side
effects); otherwise run the task loop and return the report together with
one log record per attempt plus the terminal summary record. -/
def executeWorkflow (store : String → Option WorkflowDefinition)
    (handlers : HandlerMap) (workflowId : String)
    (inputs : List (String × String)) : ExecResult :=
  match store workflowId with
  | none => ⟨ExecOutcome.workflowNotFound, [], []⟩
  | some wf =>
    match validateDetail wf with
    | some d => ⟨ExecOutcome.definitionInvalid d, [], []⟩
    | none =>
      let s := runTasks handlers wf.id inputs [] wf.tasks
      ⟨ExecOutcome.report ⟨wf.id, s.status, s.results, s.errorDetail⟩,
        s.logs ++ [summaryLog wf.id s.status s.errorDetail], s.calls⟩

/-- Modelled from the spec: the engine paired with a concrete Logger sink
(§4.3).  `sink` tells, per record, whether the fire-and-forget append
succeeded; the stored records are those the sink accepted, and the
engine's own result does not consult the sink at all (logging is
best-effort, never a correctness dependency). -/
def executeWorkflowLogged (sink : LogRecord → Bool)
    (store : String → Option WorkflowDefinition) (handlers : HandlerMap)
    (workflowId : String) (inputs : List (String × String)) :
    ExecResult × List LogRecord :=
  let r := executeWorkflow store handlers workflowId inputs
  (r, r.logs.filter sink)

/-- Modelled from the spec: the title parameter wired into the trout
pipeline's IssueCreate task (§4.4): the caller-supplied `inputs.title`
overrides when present, otherwise the title is derived from the
TextProcess task's output. -/
def troutIssueTitleParam (inputs : List (String × String)) : ParamValue :=
  match inputs.lookup "title" with
  | some v => ParamValue.lit v
  | none => ParamValue.resultRef "process" "title"

/-- Modelled from the spec: the body parameter wired into the trout
pipeline's IssueCreate task (§4.4), with the same override rule as the
title. -/
def troutIssueBodyParam (inputs : List (String × String)) : ParamValue :=
  match inputs.lookup "body" with
  | some v => ParamValue.lit v
  | none => ParamValue.resultRef "process" "body"

/-- Modelled from the spec: the fixed four-task trout pipeline (§4.4):
MailList, then TextProcess over the mail body, then IssueCreate with the
override wiring, then MailSend carrying the issue url. -/
def troutDefinition (inputs : List (String × String)) : WorkflowDefinition :=
  { id := "trout", ns := "autodevops",
    tasks :=
      [ { taskId := "mail_list", kind := "MailList", params := [] },
        { taskId := "process", kind := "TextProcess",
          params := [("content", ParamValue.resultRef "mail_list" "body")] },
        { taskId := "create_issue", kind := "IssueCreate",
          params := [("title", troutIssueTitleParam inputs),
                     ("body", troutIssueBodyParam inputs)] },
        { taskId := "send_mail", kind := "MailSend",
          params := [("summary", ParamValue.resultRef "create_issue" "url")] } ] }

/-- Modelled from the spec: the definition store the Named-Workflow
Composer exposes (§4.4): it resolves exactly the name "trout". -/
def troutStore (inputs : List (String × String)) :
    String → Option WorkflowDefinition :=
  fun wfId => if wfId == "trout" then some (troutDefinition inputs) else none

/-- Modelled from the spec: `executeNamedWorkflow(name, inputs)` (§4.4):
delegates to the ordinary Workflow Executor over the composer's store,
adding no independent failure policy; unknown names fail with
`WorkflowNotFound` through the store. -/
def executeNamedWorkflow (handlers : HandlerMap) (name : String)
    (inputs : List (String × String)) : ExecResult :=
  executeWorkflow (troutStore inputs) handlers name inputs

/-! ## Front-end embeddings (translated from the JavaScript source) -/

/-- The splitting behaviour of JavaScript `split(",")` on the character
list of the string: the empty string gives one empty segment, and each
comma opens a new segment. -/
def splitCommaList : List Char → List (List Char)
  | [] => [[]]
  | c :: cs =>
    match splitCommaList cs with
    | [] => [[]]
    | seg :: rest =>
      if c = ',' then [] :: seg :: rest else (c :: seg) :: rest

/-- JavaScript `s.split(",")`. -/
def splitComma (s : String) : List String :=
  (splitCommaList s.data).map (fun l => String.mk l)

/-- The whitespace characters relevant to the labels strings at hand
(JavaScript `trim` strips these, among other Unicode space characters
that the repository's inputs do not contain). -/
def isWhitespaceChar (c : Char) : Bool :=
  c = ' ' || c = '\t' || c = '\n' || c = '\r'

/-- JavaScript `l.trim()`: strip leading and trailing whitespace. -/
def trimStr (s : String) : String :=
  String.mk
    (((s.data.dropWhile isWhitespaceChar).reverse.dropWhile
        isWhitespaceChar).reverse)

/-- From `frontend/components/IssueCreator.jsx`, `handleSubmit`
(lines 39-41): `labels ? labels.split(",").map(l => l.trim()).filter(l => l) : []`.
An empty string is falsy in JavaScript, and `filter(l => l)` keeps the
non-empty segments. -/
def labelsArray (labels : String) : List String :=
  if labels = "" then []
  else ((splitComma labels).map trimStr).filter (fun l => !(l == ""))

/-- The labels value the specification sentence describes: the
comma-separated segments of the input, each trimmed, with empty segments
removed.  Stated separately from `labelsArray` so that the code can be
compared against the sentence. -/
def labelsSpec (labels : String) : List String :=
  ((splitComma labels).map trimStr).filter (fun l => !(l == ""))

/-- From `frontend/components/WorkflowExecutor.jsx`: what the component
stores into `executionResult`: either the response data of a successful
call (kept opaque), or the error object `{status: "error", error: ...}`
built in the catch branch. -/
inductive ExecDisplay
  | report (data : String)
  | errorBox (status : String) (error : String)
deriving DecidableEq, Repr

/-- The component state touched by `executeWorkflow` in
`frontend/components/WorkflowExecutor.jsx`: `executionResult` and
`loading`. -/
structure UIState where
  executionResult : Option ExecDisplay
  loading : Bool
deriving DecidableEq, Repr

/-- How one awaited `apiService.executeWorkflow` call can end: a
fulfilled response with data, or a rejection carrying the optional
server-provided message `error.response?.data?.error`. -/
inductive ApiOutcome
  | ok (data : String)
  | rejected (serverError : Option String)
deriving DecidableEq, Repr

/-- From `frontend/components/WorkflowExecutor.jsx`, `executeWorkflow`
(lines 27-42), as the transition on the component state once the awaited
call settles: `setLoading(true)`, `setExecutionResult(null)`, then either
`setExecutionResult(response.data)` or, in the catch branch,
`setExecutionResult({status: "error", error: error.response?.data?.error
|| "Failed to execute workflow"})`, and in the finally branch
`setLoading(false)`.  Both state fields are overwritten unconditionally,
so the prior state does not appear. -/
def executeWorkflowUI (call : ApiOutcome) : UIState :=
  let s1 : UIState := { executionResult := none, loading := true }
  let s2 : UIState :=
    match call with
    | ApiOutcome.ok d => { s1 with executionResult := some (ExecDisplay.report d) }
    | ApiOutcome.rejected se =>
      let msg := se.getD "Failed to execute workflow"
      { s1 with executionResult := some (ExecDisplay.errorBox "error" msg) }
  { s2 with loading := false }

/-! ## Structural lemmas about the engine -/

theorem dispatch_taskId (handlers : HandlerMap) (t : TaskSpec)
    (resolved : List (String × String)) :
    (dispatch handlers t resolved).taskId = t.taskId := by
  cases hk : kindOf t.kind with
  | none => simp [dispatch, hk, failedResult]
  | some k =>
    cases hh : handlers k resolved <;> simp [dispatch, hk, hh, failedResult]

theorem execTask_taskId (handlers : HandlerMap) (inputs : List (String × String))
    (done : List TaskResult) (t : TaskSpec) :
    (execTask handlers inputs done t).taskId = t.taskId :=
  dispatch_taskId handlers t (resolveParams inputs done t.params)

theorem runTasks_nil (handlers : HandlerMap) (wfId : String)
    (inputs : List (String × String)) (done : List TaskResult) :
    runTasks handlers wfId inputs done [] = ⟨[], [], [], Status.Success, none⟩ := rfl

theorem runTasks_cons_failed {handlers : HandlerMap} {wfId : String}
    {inputs : List (String × String)} {done : List TaskResult}
    {t : TaskSpec} {rest : List TaskSpec}
    (h : (execTask handlers inputs done t).status = Status.Failed) :
    runTasks handlers wfId inputs done (t :: rest) =
      ⟨[execTask handlers inputs done t],
        [taskLog wfId (execTask handlers inputs done t)],
        [t.taskId], Status.Failed,
        (execTask handlers inputs done t).errorDetail⟩ := by
  simp only [runTasks, h]

theorem runTasks_cons_success {handlers : HandlerMap} {wfId : String}
    {inputs : List (String × String)} {done : List TaskResult}
    {t : TaskSpec} {rest : List TaskSpec}
    (h : (execTask handlers inputs done t).status = Status.Success) :
    runTasks handlers wfId inputs done (t :: rest) =
      ⟨execTask handlers inputs done t ::
          (runTasks handlers wfId inputs (done ++ [execTask handlers inputs done t]) rest).results,
        taskLog wfId (execTask handlers inputs done t) ::
          (runTasks handlers wfId inputs (done ++ [execTask handlers inputs done t]) rest).logs,
        t.taskId ::
          (runTasks handlers wfId inputs (done ++ [execTask handlers inputs done t]) rest).calls,
        (runTasks handlers wfId inputs (done ++ [execTask handlers inputs done t]) rest).status,
        (runTasks handlers wfId inputs (done ++ [execTask handlers inputs done t]) rest).errorDetail⟩ := by
  simp only [runTasks, h]

theorem runTasks_logs (handlers : HandlerMap) (wfId : String)
    (inputs : List (String × String)) (ts : List TaskSpec) :
    ∀ done : List TaskResult,
      (runTasks handlers wfId inputs done ts).logs =
        (runTasks handlers wfId inputs done ts).results.map (taskLog wfId) := by
  induction ts with
  | nil => intro done; rfl
  | cons t rest ih =>
    intro done
    cases h : (execTask handlers inputs done t).status with
    | Success =>
      rw [runTasks_cons_success h]
      simp [ih]
    | Failed =>
      rw [runTasks_cons_failed h]
      simp

theorem runTasks_length_le (handlers : HandlerMap) (wfId : String)
    (inputs : List (String × String)) (ts : List TaskSpec) :
    ∀ done : List TaskResult,
      (runTasks handlers wfId inputs done ts).results.length ≤ ts.length := by
  induction ts with
  | nil => intro done; simp [runTasks_nil]
  | cons t rest ih =>
    intro done
    cases h : (execTask handlers inputs done t).status with
    | Success =>
      rw [runTasks_cons_success h]
      simpa using Nat.succ_le_succ (ih (done ++ [execTask handlers inputs done t]))
    | Failed =>
      rw [runTasks_cons_failed h]
      simp

theorem runTasks_results_taskIds (handlers : HandlerMap) (wfId : String)
    (inputs : List (String × String)) (ts : List TaskSpec) :
    ∀ done : List TaskResult,
      (runTasks handlers wfId inputs done ts).results.map TaskResult.taskId =
        (ts.take (runTasks handlers wfId inputs done ts).results.length).map TaskSpec.taskId := by
  induction ts with
  | nil => intro done; rfl
  | cons t rest ih =>
    intro done
    cases h : (execTask handlers inputs done t).status with
    | Success =>
      rw [runTasks_cons_success h]
      simp [ih, execTask_taskId]
    | Failed =>
      rw [runTasks_cons_failed h]
      simp [execTask_taskId]

theorem runTasks_calls (handlers : HandlerMap) (wfId : String)
    (inputs : List (String × String)) (ts : List TaskSpec) :
    ∀ done : List TaskResult,
      (runTasks handlers wfId inputs done ts).calls =
        (ts.take (runTasks handlers wfId inputs done ts).results.length).map TaskSpec.taskId := by
  induction ts with
  | nil => intro done; rfl
  | cons t rest ih =>
    intro done
    cases h : (execTask handlers inputs done t).status with
    | Success =>
      rw [runTasks_cons_success h]
      simp [ih]
    | Failed =>
      rw [runTasks_cons_failed h]
      simp

theorem runTasks_calls_length (handlers : HandlerMap) (wfId : String)
    (inputs : List (String × String)) (ts : List TaskSpec)
    (done : List TaskResult) :
    (runTasks handlers wfId inputs done ts).calls.length =
      (runTasks handlers wfId inputs done ts).results.length := by
  rw [runTasks_calls]
  simp [List.length_take]
  exact runTasks_length_le handlers wfId inputs ts done

theorem runTasks_success (handlers : HandlerMap) (wfId : String)
    (inputs : List (String × String)) (ts : List TaskSpec) :
    ∀ done : List TaskResult,
      (runTasks handlers wfId inputs done ts).status = Status.Success →
        (runTasks handlers wfId inputs done ts).results.length = ts.length ∧
          ∀ r ∈ (runTasks handlers wfId inputs done ts).results,
            r.status = Status.Success := by
  induction ts with
  | nil => intro done _; simp [runTasks_nil]
  | cons t rest ih =>
    intro done hst
    cases h : (execTask handlers inputs done t).status with
    | Success =>
      rw [runTasks_cons_success h] at hst ⊢
      have := ih (done ++ [execTask handlers inputs done t]) hst
      simp only [List.length_cons, List.mem_cons]
      constructor
      · omega
      · intro r hr
        rcases hr with rfl | hr
        · exact h
        · exact this.2 r hr
    | Failed =>
      rw [runTasks_cons_failed h] at hst
      simp at hst

theorem runTasks_failed (handlers : HandlerMap) (wfId : String)
    (inputs : List (String × String)) (ts : List TaskSpec) :
    ∀ done : List TaskResult,
      (runTasks handlers wfId inputs done ts).status = Status.Failed →
        ∃ rs r, (runTasks handlers wfId inputs done ts).results = rs ++ [r] ∧
          r.status = Status.Failed ∧
          (∀ x ∈ rs, x.status = Status.Success) ∧
          (runTasks handlers wfId inputs done ts).errorDetail = r.errorDetail := by
  induction ts with
  | nil => intro done hst; simp [runTasks_nil] at hst
  | cons t rest ih =>
    intro done hst
    cases h : (execTask handlers inputs done t).status with
    | Success =>
      rw [runTasks_cons_success h] at hst ⊢
      obtain ⟨rs, r, hres, hr, hall, herr⟩ :=
        ih (done ++ [execTask handlers inputs done t]) hst
      refine ⟨execTask handlers inputs done t :: rs, r, ?_, hr, ?_, herr⟩
      · simp [hres]
      · intro x hx
        rcases List.mem_cons.mp hx with rfl | hx
        · exact h
        · exact hall x hx
    | Failed =>
      rw [runTasks_cons_failed h]
      exact ⟨[], execTask handlers inputs done t, by simp, h, by simp, rfl⟩

theorem validateDetail_none (wf : WorkflowDefinition)
    (hv : validateDetail wf = none) :
    wf.tasks ≠ [] ∧ (wf.tasks.map TaskSpec.taskId).Nodup ∧
      ∀ t ∈ wf.tasks, (kindOf t.kind).isSome := by
  unfold validateDetail at hv
  split at hv
  · exact absurd hv (by simp)
  · split at hv
    · exact absurd hv (by simp)
    · split at hv
      · exact absurd hv (by simp)
      · next h1 h2 h3 =>
        refine ⟨by simpa using h1, by simpa using h2, ?_⟩
        intro t ht
        have := h3
        rw [List.any_eq_true] at this
        push_neg at this
        have h4 := List.any_eq_false.mp (Bool.eq_false_iff.mpr h3)
        have h5 := h4 t ht
        simpa [Option.isNone_iff_eq_none, Option.isSome_iff_ne_none] using h5

theorem lookup_map_snd (f : ParamValue → String) (key : String) :
    ∀ ps : List (String × ParamValue),
      (ps.map (fun p => (p.1, f p.2))).lookup key = (ps.lookup key).map f := by
  intro ps
  induction ps with
  | nil => rfl
  | cons p rest ih =>
    cases p with
    | mk k v =>
      by_cases hk : key == k
      · simp [List.lookup, hk]
      · simp [List.lookup, hk, ih]

theorem lookup_resolveParams (inputs : List (String × String))
    (done : List TaskResult) (ps : List (String × ParamValue)) (key : String) :
    (resolveParams inputs done ps).lookup key =
      (ps.lookup key).map (resolveParam inputs done) := by
  unfold resolveParams
  exact lookup_map_snd (resolveParam inputs done) key ps

/-! ## Concrete fixtures (used to instantiate the theorems) -/

/-- A handler table in which every handler succeeds with a fixed payload. -/
def okHandlers : HandlerMap :=
  fun _ _ => HandlerOutcome.ok [("body", "hello"), ("title", "T"), ("url", "U")]

/-- A handler table whose TextProcess handler raises an exception. -/
def failSecondHandlers : HandlerMap := fun k _ =>
  match k with
  | Kind.TextProcess => HandlerOutcome.exn "boom"
  | _ => HandlerOutcome.ok [("body", "hello")]

/-- A three-task workflow used as concrete instance. -/
def wf1 : WorkflowDefinition :=
  { id := "w1", ns := "n",
    tasks := [ { taskId := "t1", kind := "HttpRequest", params := [] },
               { taskId := "t2", kind := "TextProcess",
                 params := [("content", ParamValue.resultRef "t1" "body")] },
               { taskId := "t3", kind := "MailSend", params := [] } ] }

/-- A store that resolves only `"w1"`. -/
def store1 : String → Option WorkflowDefinition :=
  fun s => if s == "w1" then some wf1 else none

/-- A store that resolves nothing. -/
def emptyStore : String → Option WorkflowDefinition := fun _ => none

/-- A structurally invalid definition: its task list is empty. -/
def badWf : WorkflowDefinition := { id := "bad", ns := "n", tasks := [] }

/-- A store that resolves only the invalid definition. -/
def badStore : String → Option WorkflowDefinition :=
  fun s => if s == "bad" then some badWf else none

/-! ## Claim theorems -/

/-- C3: for every workflowId that the Definition Store cannot resolve,
executeWorkflow returns a WorkflowNotFound error (it does not start the
run: no handler is invoked) and the Logger receives zero records for the
invocation. -/
theorem executeWorkflow_workflowNotFound
    (store : String → Option WorkflowDefinition) (handlers : HandlerMap)
    (workflowId : String) (inputs : List (String × String))
    (h : store workflowId = none) :
    executeWorkflow store handlers workflowId inputs =
      ⟨ExecOutcome.workflowNotFound, [], []⟩ := by
  simp [executeWorkflow, h]

/-- Witness for C3: the unresolvable id "missing" yields WorkflowNotFound
with no log records and no handler calls. -/
theorem executeWorkflow_workflowNotFound_witness :
    emptyStore "missing" = none ∧
      executeWorkflow emptyStore okHandlers "missing" [] =
        ⟨ExecOutcome.workflowNotFound, [], []⟩ :=
  ⟨rfl, executeWorkflow_workflowNotFound emptyStore okHandlers "missing" [] rfl⟩

/-- C4: for every loaded definition that is malformed (empty task list,
duplicate taskId, or unknown kind), executeWorkflow returns a
DefinitionInvalid error detected before any task runs: no handler is
invoked and no log record is emitted. -/
theorem executeWorkflow_definitionInvalid
    (store : String → Option WorkflowDefinition) (handlers : HandlerMap)
    (workflowId : String) (inputs : List (String × String))
    (wf : WorkflowDefinition) (hwf : store workflowId = some wf)
    (hm : wf.tasks = [] ∨ ¬ (wf.tasks.map TaskSpec.taskId).Nodup ∨
      ∃ t ∈ wf.tasks, kindOf t.kind = none) :
    ∃ d, executeWorkflow store handlers workflowId inputs =
      ⟨ExecOutcome.definitionInvalid d, [], []⟩ := by
  have hv : ∃ d, validateDetail wf = some d := by
    cases hvd : validateDetail wf with
    | some d => exact ⟨d, rfl⟩
    | none =>
      obtain ⟨h1, h2, h3⟩ := validateDetail_none wf hvd
      rcases hm with hm | hm | hm
      · exact absurd hm h1
      · exact absurd h2 hm
      · obtain ⟨t, ht, hk⟩ := hm
        have := h3 t ht
        simp [hk] at this
  obtain ⟨d, hd⟩ := hv
  exact ⟨d, by simp [executeWorkflow, hwf, hd]⟩

/-- Witness for C4: the empty-task-list definition is rejected as
DefinitionInvalid with no side effect. -/
theorem executeWorkflow_definitionInvalid_witness :
    badStore "bad" = some badWf ∧
      ∃ d, executeWorkflow badStore okHandlers "bad" [] =
        ⟨ExecOutcome.definitionInvalid d, [], []⟩ :=
  ⟨rfl, executeWorkflow_definitionInvalid badStore okHandlers "bad" [] badWf rfl
    (Or.inl rfl)⟩

/-- C5: for every task kind in the static table and every resolved
parameter map, an exception raised by the handler, and likewise a
returned error, is caught at the Dispatcher boundary and normalised into
TaskResult{status: Failed, errorDetail}; moreover dispatch is total and
the Executor boundary always hands back a structured report once a run
starts, so no handler-level fault escapes as a crash. -/
theorem dispatch_normalizes_handler_faults (handlers : HandlerMap)
    (t : TaskSpec) (resolved : List (String × String)) (k : Kind) (d : String)
    (hk : kindOf t.kind = some k)
    (hf : handlers k resolved = HandlerOutcome.exn d ∨
      handlers k resolved = HandlerOutcome.err d) :
    dispatch handlers t resolved =
      { taskId := t.taskId, kind := t.kind, status := Status.Failed,
        payload := [], errorDetail := some d } ∧
      (∀ (store : String → Option WorkflowDefinition) (workflowId : String)
        (inputs : List (String × String)) (wf : WorkflowDefinition),
        store workflowId = some wf → validateDetail wf = none →
        ∃ rep, (executeWorkflow store handlers workflowId inputs).outcome =
          ExecOutcome.report rep) := by
  constructor
  · rcases hf with hf | hf <;> simp [dispatch, hk, hf, failedResult]
  · intro store workflowId inputs wf hwf hv
    refine ⟨⟨wf.id, (runTasks handlers wf.id inputs [] wf.tasks).status,
      (runTasks handlers wf.id inputs [] wf.tasks).results,
      (runTasks handlers wf.id inputs [] wf.tasks).errorDetail⟩, ?_⟩
    simp [executeWorkflow, hwf, hv]

/-- Witness for C5: a TextProcess handler that raises "boom" is folded
into a Failed TaskResult carrying that detail. -/
theorem dispatch_normalizes_handler_faults_witness :
    kindOf "TextProcess" = some Kind.TextProcess ∧
      dispatch failSecondHandlers
          { taskId := "t2", kind := "TextProcess", params := [] } [] =
        { taskId := "t2", kind := "TextProcess", status := Status.Failed,
          payload := [], errorDetail := some "boom" } :=
  ⟨rfl,
    (dispatch_normalizes_handler_faults failSecondHandlers
      { taskId := "t2", kind := "TextProcess", params := [] } []
      Kind.TextProcess "boom" rfl (Or.inl rfl)).1⟩

/-- C9: the labels array sent by the issue-creation front end equals the
comma-separated segments of the input with surrounding whitespace
trimmed and empty segments removed; the empty string yields the empty
array, and no sent segment is the empty string. -/
theorem labelsArray_spec (s : String) :
    labelsArray s = labelsSpec s ∧ labelsArray "" = [] ∧
      ∀ l ∈ labelsArray s, ¬ l = "" := by
  refine ⟨?_, rfl, ?_⟩
  · by_cases h : s = ""
    · subst h; decide
    · simp [labelsArray, labelsSpec, h]
  · intro l hl
    by_cases h : s = ""
    · subst h; simp [labelsArray] at hl
    · simp only [labelsArray, if_neg h] at hl
      have := (List.mem_filter.mp hl).2
      simpa using this

/-- Witness for C9: a concrete labels string with spaces and an empty
segment parses to the trimmed non-empty segments, and a sent segment is
non-empty. -/
theorem labelsArray_spec_witness :
    labelsArray "bug,  enhancement  , ,documentation" =
        labelsSpec "bug,  enhancement  , ,documentation" ∧
      ¬ "bug" = "" :=
  ⟨(labelsArray_spec "bug,  enhancement  , ,documentation").1,
    (labelsArray_spec "bug,  enhancement  , ,documentation").2.2 "bug" (by decide)⟩

/-- C2: in every run, the TaskResult sequence matches the TaskSpec
sequence in order up to and including the first failure (it is the id
sequence of the prefix of attempted tasks), the dispatch trace coincides
with it and repeats no task, and when no task fails the report contains
exactly one Success TaskResult per TaskSpec in spec order and the overall
report status is Success. -/
theorem run_ordering_invariant
    (store : String → Option WorkflowDefinition) (handlers : HandlerMap)
    (workflowId : String) (inputs : List (String × String))
    (wf : WorkflowDefinition) (s : RunState)
    (hwf : store workflowId = some wf) (hv : validateDetail wf = none)
    (hs : s = runTasks handlers wf.id inputs [] wf.tasks) :
    s.results.map TaskResult.taskId =
        (wf.tasks.take s.results.length).map TaskSpec.taskId ∧
      s.calls = s.results.map TaskResult.taskId ∧
      (s.results.map TaskResult.taskId).Nodup ∧
      (s.status = Status.Success →
        s.results.length = wf.tasks.length ∧
        s.results.map TaskResult.taskId = wf.tasks.map TaskSpec.taskId ∧
        (∀ r ∈ s.results, r.status = Status.Success) ∧
        (executeWorkflow store handlers workflowId inputs).outcome =
          ExecOutcome.report ⟨wf.id, Status.Success, s.results, s.errorDetail⟩) := by
  subst hs
  have hord := runTasks_results_taskIds handlers wf.id inputs wf.tasks []
  have hcalls := runTasks_calls handlers wf.id inputs wf.tasks []
  have hnodup :
      ((runTasks handlers wf.id inputs [] wf.tasks).results.map
        TaskResult.taskId).Nodup := by
    rw [hord, List.map_take]
    exact ((validateDetail_none wf hv).2.1).sublist (List.take_sublist _ _)
  refine ⟨hord, ?_, hnodup, ?_⟩
  · rw [hcalls, hord]
  · intro hsucc
    obtain ⟨hlen, hall⟩ := runTasks_success handlers wf.id inputs wf.tasks [] hsucc
    refine ⟨hlen, ?_, hall, ?_⟩
    · rw [hord, hlen, List.take_length]
    · simp [executeWorkflow, hwf, hv, hsucc]

/-- Witness for C2: with all handlers succeeding, the run over `wf1`
produces exactly its three taskIds in order, all Success. -/
theorem run_ordering_invariant_witness :
    (runTasks okHandlers "w1" [] [] wf1.tasks).results.map TaskResult.taskId =
        wf1.tasks.map TaskSpec.taskId ∧
      ∀ r ∈ (runTasks okHandlers "w1" [] [] wf1.tasks).results,
        r.status = Status.Success :=
  ⟨((run_ordering_invariant store1 okHandlers "w1" [] wf1
        (runTasks okHandlers "w1" [] [] wf1.tasks) rfl (by decide) rfl).2.2.2
      (by decide)).2.1,
    ((run_ordering_invariant store1 okHandlers "w1" [] wf1
        (runTasks okHandlers "w1" [] [] wf1.tasks) rfl (by decide) rfl).2.2.2
      (by decide)).2.2.1⟩

/-- C6: a parameter written as a reference to `results.<t1>.body` resolves,
immediately before dispatch and against the snapshot of inputs and
results-so-far, to exactly the `payload.body` value produced by the
earlier successful task `t1` (so the resolved value is determined by that
output); the handler receives precisely the resolved snapshot value, and
substitution is idempotent: resolving an already-resolved (literal) value
changes nothing. -/
theorem template_resolution_correct
    (inputs : List (String × String)) (done : List TaskResult)
    (handlers : HandlerMap) (t : TaskSpec) (t1 pkey b : String)
    (r1 : TaskResult) (v : ParamValue)
    (hfind : firstSuccessFor done t1 = some r1)
    (hbody : r1.payload.lookup "body" = some b)
    (hparam : t.params.lookup pkey = some (ParamValue.resultRef t1 "body")) :
    (resolveParams inputs done t.params).lookup pkey = some b ∧
      execTask handlers inputs done t =
        dispatch handlers t (resolveParams inputs done t.params) ∧
      resolveParam inputs done (ParamValue.lit (resolveParam inputs done v)) =
        resolveParam inputs done v := by
  refine ⟨?_, rfl, rfl⟩
  rw [lookup_resolveParams, hparam]
  simp [resolveParam, hfind, hbody]

/-- Witness for C6: with t1 having succeeded with body "hello", the
TextProcess task of `wf1` receives content "hello". -/
theorem template_resolution_correct_witness :
    (resolveParams []
        [{ taskId := "t1", kind := "HttpRequest", status := Status.Success,
           payload := [("body", "hello")], errorDetail := none }]
        [("content", ParamValue.resultRef "t1" "body")]).lookup "content" =
      some "hello" :=
  (template_resolution_correct []
      [{ taskId := "t1", kind := "HttpRequest", status := Status.Success,
         payload := [("body", "hello")], errorDetail := none }]
      okHandlers
      { taskId := "t2", kind := "TextProcess",
        params := [("content", ParamValue.resultRef "t1" "body")] }
      "t1" "content" "hello"
      { taskId := "t1", kind := "HttpRequest", status := Status.Success,
        payload := [("body", "hello")], errorDetail := none }
      (ParamValue.lit "x") rfl rfl rfl).1

/-- C8: every run that starts emits exactly one LogRecord per task
attempt (one per handler invocation, failed attempts included) plus
exactly one terminal summary record whose status equals the report's
overall status, and the run's outcome is the same for every behaviour of
the Logger sink (a failing append never changes the outcome). -/
theorem logging_discipline
    (store : String → Option WorkflowDefinition) (handlers : HandlerMap)
    (workflowId : String) (inputs : List (String × String))
    (wf : WorkflowDefinition) (s : RunState)
    (hwf : store workflowId = some wf) (hv : validateDetail wf = none)
    (hs : s = runTasks handlers wf.id inputs [] wf.tasks) :
    (executeWorkflow store handlers workflowId inputs).logs =
        s.results.map (taskLog wf.id) ++
          [summaryLog wf.id s.status s.errorDetail] ∧
      (s.results.map (taskLog wf.id)).length = s.calls.length ∧
      (summaryLog wf.id s.status s.errorDetail).status = s.status ∧
      (executeWorkflow store handlers workflowId inputs).outcome =
        ExecOutcome.report ⟨wf.id, s.status, s.results, s.errorDetail⟩ ∧
      ∀ sink, (executeWorkflowLogged sink store handlers workflowId inputs).1 =
        executeWorkflow store handlers workflowId inputs := by
  subst hs
  refine ⟨?_, ?_, rfl, ?_, ?_⟩
  · simp [executeWorkflow, hwf, hv, runTasks_logs]
  · simp [List.length_map, runTasks_calls_length]
  · simp [executeWorkflow, hwf, hv]
  · intro sink
    rfl

/-- Witness for C8: the failing run over `wf1` emits one record per
attempted task plus the summary record. -/
theorem logging_discipline_witness :
    (executeWorkflow store1 failSecondHandlers "w1" []).logs =
        (runTasks failSecondHandlers "w1" [] [] wf1.tasks).results.map
            (taskLog "w1") ++
          [summaryLog "w1"
            (runTasks failSecondHandlers "w1" [] [] wf1.tasks).status
            (runTasks failSecondHandlers "w1" [] [] wf1.tasks).errorDetail] :=
  (logging_discipline store1 failSecondHandlers "w1" [] wf1
    (runTasks failSecondHandlers "w1" [] [] wf1.tasks) rfl (by decide) rfl).1

/-- C1: when the k-th task of a started run is the first whose TaskResult
is Failed, the run stops there: the result sequence has exactly k entries
(the failing task's included), no handler is invoked for any later task
(the dispatch trace is exactly the first k taskIds), the returned
structured report has status Failed and carries the failing task's
errorDetail, and the Executor returns a report rather than throwing. -/
theorem fail_fast_short_circuit
    (store : String → Option WorkflowDefinition) (handlers : HandlerMap)
    (workflowId : String) (inputs : List (String × String))
    (wf : WorkflowDefinition) (s : RunState) (k : Nat)
    (hwf : store workflowId = some wf) (hv : validateDetail wf = none)
    (hs : s = runTasks handlers wf.id inputs [] wf.tasks)
    (hkpos : 1 ≤ k) (hlt : k - 1 < s.results.length)
    (hk : (s.results.get ⟨k - 1, hlt⟩).status = Status.Failed)
    (hfirst : ∀ i (hi : i < s.results.length), i < k - 1 →
      (s.results.get ⟨i, hi⟩).status = Status.Success) :
    s.results.length = k ∧
      s.status = Status.Failed ∧
      (executeWorkflow store handlers workflowId inputs).outcome =
        ExecOutcome.report ⟨wf.id, Status.Failed, s.results, s.errorDetail⟩ ∧
      s.errorDetail = (s.results.get ⟨k - 1, hlt⟩).errorDetail ∧
      (executeWorkflow store handlers workflowId inputs).calls =
        (wf.tasks.take k).map TaskSpec.taskId ∧
      (executeWorkflow store handlers workflowId inputs).calls.length = k := by
  subst hs
  have hstatus : (runTasks handlers wf.id inputs [] wf.tasks).status = Status.Failed := by
    cases hst : (runTasks handlers wf.id inputs [] wf.tasks).status with
    | Failed => rfl
    | Success =>
      exfalso
      have hall := (runTasks_success handlers wf.id inputs wf.tasks [] hst).2
      have hmem := List.get_mem
        (runTasks handlers wf.id inputs [] wf.tasks).results (k - 1) hlt
      have hsucc := hall _ hmem
      rw [hsucc] at hk
      simp at hk
  obtain ⟨rs, r, hres, hr, hall, herr⟩ :=
    runTasks_failed handlers wf.id inputs wf.tasks [] hstatus
  have hk1 : k - 1 = rs.length := by
    rcases Nat.lt_trichotomy (k - 1) rs.length with h2 | h2 | h2
    · exfalso
      have hg : (runTasks handlers wf.id inputs [] wf.tasks).results.get
          ⟨k - 1, hlt⟩ = rs.get ⟨k - 1, h2⟩ := by
        rw [List.get_eq_getElem, List.get_eq_getElem]
        simp only [hres]
        exact List.getElem_append_left h2
      have hsucc := hall _ (List.get_mem rs (k - 1) h2)
      rw [hg, hsucc] at hk
      simp at hk
    · exact h2
    · exfalso
      have hlen1 : (runTasks handlers wf.id inputs [] wf.tasks).results.length =
          rs.length + 1 := by
        rw [hres]; simp
      omega
  have hlen : (runTasks handlers wf.id inputs [] wf.tasks).results.length = k := by
    rw [hres]
    simp
    omega
  have hgetr : (runTasks handlers wf.id inputs [] wf.tasks).results.get
      ⟨k - 1, hlt⟩ = r := by
    rw [List.get_eq_getElem]
    simp only [hres]
    exact List.getElem_concat_length rs r (k - 1) hk1 (hres ▸ hlt)
  refine ⟨hlen, hstatus, ?_, ?_, ?_, ?_⟩
  · simp [executeWorkflow, hwf, hv, hstatus]
  · rw [herr, hgetr]
  · have hcalls := runTasks_calls handlers wf.id inputs wf.tasks []
    simp only [executeWorkflow, hwf, hv]
    rw [hcalls, hlen]
  · simp only [executeWorkflow, hwf, hv]
    rw [runTasks_calls_length handlers wf.id inputs wf.tasks [], hlen]

/-- Witness for C1: with the TextProcess handler raising, the run over
`wf1` fails at its second task, returns exactly two results, and invokes
exactly two handlers. -/
theorem fail_fast_short_circuit_witness :
    (runTasks failSecondHandlers "w1" [] [] wf1.tasks).results.length = 2 ∧
      (executeWorkflow store1 failSecondHandlers "w1" []).calls.length = 2 :=
  ⟨(fail_fast_short_circuit store1 failSecondHandlers "w1" [] wf1
      (runTasks failSecondHandlers "w1" [] [] wf1.tasks) 2 rfl (by decide) rfl
      (by decide) (by decide) (by decide)
      (by
        intro i hi h1
        have hi0 : i = 0 := by omega
        subst hi0
        rfl)).1,
    (fail_fast_short_circuit store1 failSecondHandlers "w1" [] wf1
      (runTasks failSecondHandlers "w1" [] [] wf1.tasks) 2 rfl (by decide) rfl
      (by decide) (by decide) (by decide)
      (by
        intro i hi h1
        have hi0 : i = 0 := by omega
        subst hi0
        rfl)).2.2.2.2.2⟩

/-- C7: executeNamedWorkflow("trout", inputs) runs the fixed four-task
pipeline MailList, TextProcess, IssueCreate, MailSend by delegating to
the ordinary Workflow Executor over the composer's store (no independent
failure policy); for any other name the call fails with WorkflowNotFound;
when the inputs carry a title the IssueCreate task's resolved title is
exactly the caller-supplied value, and otherwise the title is wired to
the TextProcess task's output. -/
theorem trout_named_workflow (handlers : HandlerMap)
    (inputs i2 : List (String × String)) (name x dt : String)
    (done : List TaskResult) (r : TaskResult) :
    (troutDefinition inputs).tasks.map TaskSpec.kind =
        ["MailList", "TextProcess", "IssueCreate", "MailSend"] ∧
      troutStore inputs "trout" = some (troutDefinition inputs) ∧
      executeNamedWorkflow handlers name inputs =
        executeWorkflow (troutStore inputs) handlers name inputs ∧
      (¬ name = "trout" →
        executeNamedWorkflow handlers name inputs =
          ⟨ExecOutcome.workflowNotFound, [], []⟩) ∧
      (troutDefinition inputs).tasks[2]? =
        some { taskId := "create_issue", kind := "IssueCreate",
               params := [("title", troutIssueTitleParam inputs),
                          ("body", troutIssueBodyParam inputs)] } ∧
      (inputs.lookup "title" = some x →
        troutIssueTitleParam inputs = ParamValue.lit x ∧
        resolveParam i2 done (troutIssueTitleParam inputs) = x) ∧
      (inputs.lookup "title" = none →
        troutIssueTitleParam inputs = ParamValue.resultRef "process" "title" ∧
        (firstSuccessFor done "process" = some r →
          r.payload.lookup "title" = some dt →
          resolveParam i2 done (troutIssueTitleParam inputs) = dt)) := by
  refine ⟨by simp [troutDefinition], rfl, rfl, ?_, rfl, ?_, ?_⟩
  · intro hn
    simp [executeNamedWorkflow, executeWorkflow, troutStore, hn]
  · intro hx
    refine ⟨by simp [troutIssueTitleParam, hx], ?_⟩
    simp [troutIssueTitleParam, hx, resolveParam]
  · intro hx
    refine ⟨by simp [troutIssueTitleParam, hx], ?_⟩
    intro hf hd
    simp [troutIssueTitleParam, hx, resolveParam, hf, hd]

/-- Witness for C7: the unknown name "salmon" yields WorkflowNotFound;
with inputs {title: "X"} the IssueCreate title resolves to "X"; with no
title input it is wired to the process output and resolves to that
output's title field. -/
theorem trout_named_workflow_witness :
    executeNamedWorkflow okHandlers "salmon" [("title", "X")] =
        ⟨ExecOutcome.workflowNotFound, [], []⟩ ∧
      resolveParam [] [] (troutIssueTitleParam [("title", "X")]) = "X" ∧
      resolveParam []
          [{ taskId := "process", kind := "TextProcess",
             status := Status.Success, payload := [("title", "D")],
             errorDetail := none }]
          (troutIssueTitleParam []) = "D" :=
  ⟨(trout_named_workflow okHandlers [("title", "X")] [] "salmon" "X" "D" []
      { taskId := "process", kind := "TextProcess", status := Status.Success,
        payload := [("title", "D")], errorDetail := none }).2.2.2.1
    (by decide),
    ((trout_named_workflow okHandlers [("title", "X")] [] "trout" "X" "D" []
      { taskId := "process", kind := "TextProcess", status := Status.Success,
        payload := [("title", "D")], errorDetail := none }).2.2.2.2.2.1
      rfl).2,
    (((trout_named_workflow okHandlers [] [] "trout" "X" "D"
        [{ taskId := "process", kind := "TextProcess",
           status := Status.Success, payload := [("title", "D")],
           errorDetail := none }]
        { taskId := "process", kind := "TextProcess",
          status := Status.Success, payload := [("title", "D")],
          errorDetail := none }).2.2.2.2.2.2 rfl).2 rfl rfl)⟩

/-- C10: when the dashboard's executeWorkflow call rejects, the displayed
execution result becomes {status: "error"} with the server-provided
message when present and "Failed to execute workflow" otherwise, the
exception does not propagate (the transition is total), and in every
case, success or rejection, the loading flag is cleared once the call
completes. -/
theorem executeWorkflowUI_normalizes (m : String) (d : String)
    (call : ApiOutcome) :
    (executeWorkflowUI (ApiOutcome.rejected (some m))).executionResult =
        some (ExecDisplay.errorBox "error" m) ∧
      (executeWorkflowUI (ApiOutcome.rejected none)).executionResult =
        some (ExecDisplay.errorBox "error" "Failed to execute workflow") ∧
      (executeWorkflowUI (ApiOutcome.ok d)).executionResult =
        some (ExecDisplay.report d) ∧
      (executeWorkflowUI call).loading = false := by
  refine ⟨rfl, rfl, rfl, ?_⟩
  cases call <;> rfl

end AutoDevOps
